import Mathlib

/-!
Verification of the Spotiflow QC script (`QC/run-spotiflow-qc.py`) against its
design specification.  The script's own code (`load_data`, `main`) is embedded
directly; the point-matching engine it calls (`points_matching_dataset` from the
external `spotiflow.utils` library) is not part of this repository, so it is
modelled from the specification's component design (§4.1–§4.4).

Modelling conventions:
* CSV coordinate values are modelled as integers (`ℤ`); the cutoff is a
  rational (`ℚ`).  The within-cutoff test `dist < cutoff` on nonnegative
  values is equivalent to `dist² < cutoff²`, which is performed here by
  integer cross-multiplication against `cutoff.num / cutoff.den`; the lemma
  `withinCutoff_iff` proves this equal to the rational statement
  `0 < cutoff ∧ (dist² : ℚ) < cutoff ^ 2`.
* Directories are modelled as lists of file names; reading a CSV file is an
  abstract function `String → Coords` passed as a parameter; the trace of
  files read and of file-system mutations is made explicit so that "no file
  is read / written" claims are statable.
* File-name handling (`Path.stem`, `str.split`, `str.startswith`,
  `sorted(...)`) is implemented over character lists so that every
  definition evaluates inside the kernel.
-/

/-! ## Character-list string primitives (Python `str` operations) -/

/-- Boolean test that the first list is a leading segment of the second
(Python `str.startswith`, over characters). -/
def startsWithChars : List Char → List Char → Bool
  | [], _ => true
  | _ :: _, [] => false
  | p :: ps, c :: cs => if p = c then startsWithChars ps cs else false

/-- The characters of `s` strictly before the first occurrence of the
separator `sep` (the `[0]` element of Python `s.split(sep)` for a non-empty
separator); the whole of `s` when `sep` does not occur. -/
def charsBeforeSub (sep : List Char) : List Char → List Char
  | [] => []
  | a :: as => if startsWithChars sep (a :: as) then [] else a :: charsBeforeSub sep as

/-- Python `pathlib.Path.stem` on a file name: the name with its final
`.suffix` removed.  A dot at position 0 only (hidden file, e.g. `.csv`)
does not start a suffix, matching `pathlib`. -/
def stemChars (f : List Char) : List Char :=
  if (f.drop 1).contains ('.') then
    ((f.reverse.dropWhile (fun c => !(c = ('.') : Bool))).drop 1).reverse
  else f

/-- Lexicographic (code-point) order on character lists; this is the order
Python uses to compare the path strings in `sorted(path.glob("*.csv"))`. -/
def lexLe : List Char → List Char → Bool
  | [], _ => true
  | _ :: _, [] => false
  | a :: as, b :: bs => if a = b then lexLe as bs else decide (a < b)

/-- Python `s.split("_predict")[0]`: the part of the stem before the first
occurrence of `_predict`. -/
def stripPredict (s : String) : String :=
  String.mk (charsBeforeSub (("_predict").data) s.data)

/-- Python `Path.stem` lifted to `String`. -/
def stem (f : String) : String := String.mk (stemChars f.data)

/-- Python `str.startswith` lifted to `String`. -/
def strStartsWith (s pre : String) : Bool := startsWithChars pre.data s.data

/-- Python glob-pattern test `*.csv`: the name ends with `.csv`. -/
def isCsvName (f : String) : Bool :=
  startsWithChars ((".csv").data.reverse) f.data.reverse

/-- String order used by `sorted(...)` on the globbed paths. -/
def strLe (a b : String) : Prop := lexLe a.data b.data = true

instance : DecidableRel strLe := fun a b => instDecidableEqBool (lexLe a.data b.data) true

/-! ## The loader (`load_data` in `QC/run-spotiflow-qc.py`) -/

/-- A point: one CSV row of coordinates. -/
abbrev Point := List ℤ

/-- A coordinate set: the contents of one CSV file. -/
abbrev Coords := List Point

/-- The result of `sorted(dir.glob("*.csv"))`: the `.csv` entries of the
directory listing, in lexicographically sorted order. -/
def csvFiles (dir : List String) : List String :=
  List.insertionSort strLe (dir.filter isCsvName)

/-- Predicate the loader checks for each aligned `(gt, pred)` file pair:
`gt_f.stem.startswith(pred_f.stem.split("_predict")[0])`. -/
def stemsMatch (fp : String × String) : Bool :=
  strStartsWith (stem fp.1) (stripPredict (stem fp.2))

/-- Embedding of `load_data(gt_path, pred_path, is_3d)`.  Directories are the
lists of names they contain; `r2` / `r3` are `read_coords_csv` /
`read_coords_csv3d`.  The first component is the returned pair of tuples (or
the raised `ValueError`); the second component is the trace of coordinate
files read, in reading order (all ground-truth files, then all prediction
files) — empty when an error is raised before any read. -/
def load_data (r2 r3 : String → Coords) (gtDir predDir : List String) (is3d : Bool) :
    Except String (List Coords × List Coords) × List String :=
  if (csvFiles gtDir).length ≠ (csvFiles predDir).length then
    (Except.error ("Number of files in GT and predictions do not match"), [])
  else if ¬ (((csvFiles gtDir).zip (csvFiles predDir)).all stemsMatch = true) then
    (Except.error ("Ground truth and prediction files do not match. Please check the filenames."),
     [])
  else
    (Except.ok ((csvFiles gtDir).map (if is3d then r3 else r2),
                (csvFiles predDir).map (if is3d then r3 else r2)),
     csvFiles gtDir ++ csvFiles predDir)

/-- Python default of `load_data`'s `is_3d` keyword; `main` omits the
argument, so its calls use this value. -/
def is3d_default : Bool := false

/-- True on `Except.error`, i.e. the Python call raised. -/
def isErr : Except String (List Coords × List Coords) → Bool
  | Except.error _ => true
  | Except.ok _ => false

/-! ## The matching engine, modelled from the specification

The engine (`spotiflow.utils.points_matching_dataset`) is not part of this
repository; the definitions below are modelled from §4.1–§4.4 of the spec. -/

/-- Modelled from the spec §4.1 (Pairwise Distance Evaluator): squared
Euclidean distance between two points.  Squares are used so that every
comparison is exact; `d < cutoff` on nonnegative `d` is equivalent to
`d² < cutoff²`. -/
def sqDist (p q : Point) : ℤ := ((p.zip q).map (fun ab => (ab.1 - ab.2) ^ 2)).sum

/-- Modelled from the spec §4.2: the edge test `distance(i,j) < cutoff`
together with the rule that a non-positive cutoff admits no pairs.  Stated by
integer cross-multiplication against `cutoff.num / cutoff.den`; see
`withinCutoff_iff` for the equivalent rational form. -/
def withinCutoff (cutoff : ℚ) (d : ℤ) : Bool :=
  decide (0 < cutoff.num) && decide (d * ((cutoff.den : ℤ)) ^ 2 < cutoff.num ^ 2)

/-- Modelled from the spec §4.2: the bipartite graph over sample indices in
which an edge `(i, j)` exists iff gt point `i` and pred point `j` lie within
the cutoff. -/
def withinEdges (cutoff : ℚ) (gt pred : Coords) : List (ℕ × ℕ) :=
  (List.range gt.length).flatMap (fun i =>
    (List.range pred.length).filterMap (fun j =>
      if withinCutoff cutoff (sqDist (gt.getD i []) (pred.getD j [])) then some (i, j)
      else none))

/-- No duplicates among a list of indices. -/
def nodupIdx : List ℕ → Bool
  | [] => true
  | a :: as => !(decide (a ∈ as)) && nodupIdx as

/-- A set of index pairs is a matching when no index on either side is used
twice (spec §3, Matching). -/
def isMatchingB (m : List (ℕ × ℕ)) : Bool :=
  nodupIdx (m.map Prod.fst) && nodupIdx (m.map Prod.snd)

/-- Total squared-distance cost of a candidate matching (spec §4.2 tie-break:
prefer lower total distance among matchings of equal cardinality). -/
def matchCost (gt pred : Coords) (m : List (ℕ × ℕ)) : ℤ :=
  (m.map (fun ij => sqDist (gt.getD ij.1 []) (pred.getD ij.2 []))).sum

/-- Strictly-better comparison between candidate matchings: more pairs, or
equally many pairs at strictly lower total cost. -/
def betterB (gt pred : Coords) (a b : List (ℕ × ℕ)) : Bool :=
  decide (b.length < a.length) ||
    (decide (a.length = b.length) && decide (matchCost gt pred a < matchCost gt pred b))

/-- Modelled from the spec §4.2 (Optimal Assignment Matcher): a
maximum-cardinality, minimum-total-cost matching over the within-cutoff
edges, selected deterministically by a left fold over all candidate
matchings. -/
def matchPoints (cutoff : ℚ) (gt pred : Coords) : List (ℕ × ℕ) :=
  ((withinEdges cutoff gt pred).sublists.filter isMatchingB).foldl
    (fun best m => if betterB gt pred m best then m else best) []

/-- Per-sample metrics record (spec §3, Sample Metrics).  The
localization-error statistic is omitted: it involves square roots and no
claim concerns it. -/
structure SampleMetrics where
  tp : ℕ
  fneg : ℕ
  fp : ℕ
  precision : ℚ
  recall' : ℚ
  f1 : ℚ
deriving DecidableEq

/-- Guarded precision of the spec §4.3: `TP / pred_count` when there are
predictions, else 1.0 on an empty sample and 0.0 otherwise. -/
def precisionOf (gtCount predCount tp : ℕ) : ℚ :=
  if predCount > 0 then (tp : ℚ) / (predCount : ℚ)
  else if gtCount = 0 then 1 else 0

/-- Guarded recall of the spec §4.3: `TP / gt_count` when there is ground
truth, else 1.0 on an empty sample and 0.0 otherwise. -/
def recallOf (gtCount predCount tp : ℕ) : ℚ :=
  if gtCount > 0 then (tp : ℚ) / (gtCount : ℚ)
  else if predCount = 0 then 1 else 0

/-- Guarded F1 of the spec §4.3. -/
def f1Of (p r : ℚ) : ℚ := if p + r > 0 then 2 * p * r / (p + r) else 0

/-- Modelled from the spec §4.3 (Per-Sample Metrics Calculator): counts and
guarded ratios from the set sizes and the matching cardinality.  The `fneg`
field is the FN count (`fn` is a reserved word). -/
def mkMetrics (gtCount predCount tp : ℕ) : SampleMetrics :=
  { tp := tp
    fneg := gtCount - tp
    fp := predCount - tp
    precision := precisionOf gtCount predCount tp
    recall' := recallOf gtCount predCount tp
    f1 := f1Of (precisionOf gtCount predCount tp) (recallOf gtCount predCount tp) }

/-- Match one sample and compute its metrics (spec §2 control flow). -/
def perSample (cutoff : ℚ) (gt pred : Coords) : SampleMetrics :=
  mkMetrics gt.length pred.length (matchPoints cutoff gt pred).length

/-- Dataset-level metrics record (spec §3, Dataset Metrics). -/
structure DatasetMetrics where
  precision : ℚ
  recall' : ℚ
  f1 : ℚ
  tp : ℕ
  fp : ℕ
  fneg : ℕ
deriving DecidableEq

/-- The per-sample intermediate results both aggregation policies are
computed from (spec §4.4). -/
def sampleMetricsList (cutoff : ℚ) (gts preds : List Coords) : List SampleMetrics :=
  (gts.zip preds).map (fun gp => perSample cutoff gp.1 gp.2)

/-- Modelled from the spec §4.4: by-image (macro) averaging — every sample's
ratios weighted equally. -/
def aggregateByImage (ms : List SampleMetrics) : DatasetMetrics :=
  { precision := (ms.map SampleMetrics.precision).sum / (ms.length : ℚ)
    recall' := (ms.map SampleMetrics.recall').sum / (ms.length : ℚ)
    f1 := (ms.map SampleMetrics.f1).sum / (ms.length : ℚ)
    tp := (ms.map SampleMetrics.tp).sum
    fp := (ms.map SampleMetrics.fp).sum
    fneg := (ms.map SampleMetrics.fneg).sum }

/-- The totals record the pooled policy computes its ratios from: TP, FP, FN
summed across all samples, pushed through the §4.3 calculator. -/
def pooledSample (ms : List SampleMetrics) : SampleMetrics :=
  mkMetrics ((ms.map SampleMetrics.tp).sum + (ms.map SampleMetrics.fneg).sum)
    ((ms.map SampleMetrics.tp).sum + (ms.map SampleMetrics.fp).sum)
    ((ms.map SampleMetrics.tp).sum)

/-- Modelled from the spec §4.4: pooled (micro) averaging — sum TP, FP, FN
first, then take the ratios of the totals through the §4.3 calculator. -/
def aggregatePooled (ms : List SampleMetrics) : DatasetMetrics :=
  { precision := (pooledSample ms).precision
    recall' := (pooledSample ms).recall'
    f1 := (pooledSample ms).f1
    tp := (ms.map SampleMetrics.tp).sum
    fp := (ms.map SampleMetrics.fp).sum
    fneg := (ms.map SampleMetrics.fneg).sum }

/-- Modelled from the spec §4.4/§6: the contract's aggregation-policy default
is by-image ("default is by-image (macro) per current usage"). -/
def by_image_default : Bool := true

/-- Modelled from the spec §4.4 (Dataset Aggregator): run the per-sample
pipeline over the aligned collections and combine by the caller-selected
policy — `by_image = true` gives macro averaging, `false` pooled. -/
def points_matching_dataset (gts preds : List Coords) (cutoff : ℚ) (by_image : Bool) :
    DatasetMetrics :=
  if by_image then aggregateByImage (sampleMetricsList cutoff gts preds)
  else aggregatePooled (sampleMetricsList cutoff gts preds)

/-! ## The command-line entry point (`main` in `QC/run-spotiflow-qc.py`) -/

/-- The parsed command-line arguments.  `cutoff = none` / `outfile = none`
mean the flag was not supplied. -/
structure RawArgs where
  ground_truth : String
  predictions : String
  outfile : Option String
  cutoff : Option ℚ

/-- Argparse default of `--cutoff`: 3.0 pixels. -/
def cutoff_default : ℚ := 3

/-- The cutoff value argparse hands to `main`: the supplied value, or the
default 3.0 when the flag is absent. -/
def effectiveCutoff (a : RawArgs) : ℚ := a.cutoff.getD cutoff_default

/-- The `by_image` value `main` passes to `points_matching_dataset`
(explicitly `True` at the call site). -/
def by_image_main : Bool := true

/-- A file-system mutation performed by the script. -/
inductive FsEffect where
  | mkdirParents : String → FsEffect
  | writeCsv : String → FsEffect
deriving DecidableEq

/-- Python `Path(p).parent` (as far as the effects trace needs it). -/
def parentDir (p : String) : String :=
  String.mk ((p.data.reverse.dropWhile (fun c => !(c = ('/') : Bool))).drop 1).reverse

/-- File-system mutations of the output block of `main`:
`outfile.parent.mkdir(parents=True, exist_ok=True)` then
`metrics_df.to_csv(outfile)` when an outfile is supplied, nothing otherwise. -/
def outEffects : Option String → List FsEffect
  | none => []
  | some f => [FsEffect.mkdirParents (parentDir f), FsEffect.writeCsv f]

/-- Embedding of `main()` (named `mainEntry` since `main` must have IO type).  `listDir` models the file system's directory
listings, `r2` / `r3` the two CSV readers.  The first component is the
metrics record computed (or the propagated `ValueError`); the second is the
trace of file-system mutations. -/
def mainEntry (listDir : String → List String) (r2 r3 : String → Coords) (a : RawArgs) :
    Except String DatasetMetrics × List FsEffect :=
  match (load_data r2 r3 (listDir a.ground_truth) (listDir a.predictions) is3d_default).1 with
  | Except.error e => (Except.error e, [])
  | Except.ok gp =>
      (Except.ok (points_matching_dataset gp.1 gp.2 (effectiveCutoff a) by_image_main),
       outEffects a.outfile)

/-! ## Helper lemmas: the lexicographic file order -/

/-- Unfolding equation of `lexLe` on two non-empty lists. -/
theorem lexLe_cons (a b : Char) (as bs : List Char) :
    lexLe (a :: as) (b :: bs) = if a = b then lexLe as bs else decide (a < b) := rfl

/-- The order `lexLe` is total. -/
theorem lexLe_total : ∀ a b : List Char, lexLe a b = true ∨ lexLe b a = true
  | [], _ => Or.inl rfl
  | _ :: _, [] => Or.inr rfl
  | a :: as, b :: bs => by
    by_cases hab : a = b
    · subst hab
      rcases lexLe_total as bs with h | h
      · exact Or.inl (by rw [lexLe_cons, if_pos rfl]; exact h)
      · exact Or.inr (by rw [lexLe_cons, if_pos rfl]; exact h)
    · rcases lt_trichotomy a b with h | h | h
      · exact Or.inl (by rw [lexLe_cons, if_neg hab]; exact decide_eq_true h)
      · exact absurd h hab
      · have hba : ¬ b = a := fun e => hab e.symm
        exact Or.inr (by rw [lexLe_cons, if_neg hba]; exact decide_eq_true h)

/-- The order `lexLe` is transitive. -/
theorem lexLe_trans : ∀ a b c : List Char,
    lexLe a b = true → lexLe b c = true → lexLe a c = true
  | [], _, _, _, _ => rfl
  | _ :: _, [], _, h1, _ => by simp [lexLe] at h1
  | _ :: _, _ :: _, [], _, h2 => by simp [lexLe] at h2
  | a :: as, b :: bs, c :: cs, h1, h2 => by
    rw [lexLe_cons] at h1 h2 ⊢
    by_cases hab : a = b
    · subst hab
      rw [if_pos rfl] at h1
      by_cases hbc : a = c
      · subst hbc
        rw [if_pos rfl] at h2 ⊢
        exact lexLe_trans as bs cs h1 h2
      · rw [if_neg hbc] at h2 ⊢
        exact h2
    · rw [if_neg hab] at h1
      have h1' : a < b := of_decide_eq_true h1
      by_cases hbc : b = c
      · subst hbc
        rw [if_neg hab]
        exact h1
      · rw [if_neg hbc] at h2
        have h2' : b < c := of_decide_eq_true h2
        have hac : a < c := lt_trans h1' h2'
        rw [if_neg (ne_of_lt hac)]
        exact decide_eq_true hac

/-- The globbed file list is lexicographically sorted. -/
theorem csvFiles_sorted (dir : List String) : List.Sorted strLe (csvFiles dir) :=
  @List.sorted_insertionSort String strLe _ ⟨fun a b => lexLe_total a.data b.data⟩
    ⟨fun a b c => lexLe_trans a.data b.data c.data⟩ (dir.filter isCsvName)

/-- The globbed file list is a permutation of the directory's `.csv` names. -/
theorem csvFiles_perm (dir : List String) : (csvFiles dir).Perm (dir.filter isCsvName) :=
  List.perm_insertionSort strLe (dir.filter isCsvName)

/-! ## Helper lemmas: the loader -/

/-- On success `load_data` returns the two sorted file lists read through the
selected reader, and the file lists have equal length. -/
theorem load_data_ok (r2 r3 : String → Coords) (gtDir predDir : List String) (is3d : Bool)
    (gts preds : List Coords)
    (h : (load_data r2 r3 gtDir predDir is3d).1 = Except.ok (gts, preds)) :
    gts = (csvFiles gtDir).map (if is3d then r3 else r2) ∧
    preds = (csvFiles predDir).map (if is3d then r3 else r2) ∧
    (csvFiles gtDir).length = (csvFiles predDir).length := by
  unfold load_data at h
  by_cases hlen : (csvFiles gtDir).length ≠ (csvFiles predDir).length
  · rw [if_pos hlen] at h
    exact absurd h (by simp)
  · rw [if_neg hlen] at h
    by_cases hall : ¬ (((csvFiles gtDir).zip (csvFiles predDir)).all stemsMatch = true)
    · rw [if_pos hall] at h
      exact absurd h (by simp)
    · rw [if_neg hall] at h
      have h2 : ((csvFiles gtDir).map (if is3d then r3 else r2),
          (csvFiles predDir).map (if is3d then r3 else r2)) = (gts, preds) :=
        Except.ok.inj h
      have hg := congrArg Prod.fst h2
      have hpr := congrArg Prod.snd h2
      exact ⟨hg.symm, hpr.symm, not_not.mp hlen⟩

/-- On success every aligned file pair passed the stem check. -/
theorem load_data_ok_stems (r2 r3 : String → Coords) (gtDir predDir : List String)
    (is3d : Bool) (gts preds : List Coords)
    (h : (load_data r2 r3 gtDir predDir is3d).1 = Except.ok (gts, preds)) :
    ∀ fp ∈ (csvFiles gtDir).zip (csvFiles predDir), stemsMatch fp = true := by
  unfold load_data at h
  by_cases hlen : (csvFiles gtDir).length ≠ (csvFiles predDir).length
  · rw [if_pos hlen] at h
    exact absurd h (by simp)
  · rw [if_neg hlen] at h
    by_cases hall : ¬ (((csvFiles gtDir).zip (csvFiles predDir)).all stemsMatch = true)
    · rw [if_pos hall] at h
      exact absurd h (by simp)
    · intro fp hfp
      exact List.all_eq_true.mp (not_not.mp hall) fp hfp

/-- When some aligned file pair fails the stem check, `load_data` raises and
reads nothing. -/
theorem load_data_stem_failure (r2 r3 : String → Coords) (gtDir predDir : List String)
    (is3d : Bool)
    (h : ∃ fp ∈ (csvFiles gtDir).zip (csvFiles predDir), stemsMatch fp = false) :
    isErr (load_data r2 r3 gtDir predDir is3d).1 = true ∧
      (load_data r2 r3 gtDir predDir is3d).2 = [] := by
  unfold load_data
  by_cases hlen : (csvFiles gtDir).length ≠ (csvFiles predDir).length
  · rw [if_pos hlen]
    exact ⟨rfl, rfl⟩
  · rw [if_neg hlen]
    obtain ⟨fp, hfp, hfalse⟩ := h
    have hall : ¬ (((csvFiles gtDir).zip (csvFiles predDir)).all stemsMatch = true) := by
      intro hcontra
      have := List.all_eq_true.mp hcontra fp hfp
      rw [hfalse] at this
      exact Bool.false_ne_true this
    rw [if_pos hall]
    exact ⟨rfl, rfl⟩

/-! ## Helper lemmas: the matcher -/

/-- A fold that keeps either the accumulator or the current element returns
the initial value or a member of the list. -/
theorem foldl_choice_mem {α : Type} (f : α → α → Bool) (l : List α) (init : α) :
    l.foldl (fun best m => if f m best then m else best) init ∈ init :: l := by
  induction l generalizing init with
  | nil => simp
  | cons a as ih =>
    rw [List.foldl_cons]
    by_cases hf : f a init = true
    · rw [if_pos hf]
      rcases List.mem_cons.mp (ih a) with h | h
      · rw [h]
        exact List.mem_cons_of_mem _ (List.mem_cons_self a as)
      · exact List.mem_cons_of_mem _ (List.mem_cons_of_mem _ h)
    · rw [if_neg hf]
      rcases List.mem_cons.mp (ih init) with h | h
      · rw [h]
        exact List.mem_cons_self init (a :: as)
      · exact List.mem_cons_of_mem _ (List.mem_cons_of_mem _ h)

/-- Boolean no-duplicate test agrees with `List.Nodup`. -/
theorem nodupIdx_iff (l : List ℕ) : nodupIdx l = true ↔ l.Nodup := by
  induction l with
  | nil => simp [nodupIdx]
  | cons a as ih =>
    simp [nodupIdx, List.nodup_cons, ih]

/-- A duplicate-free list of indices all below `n` has at most `n` elements. -/
theorem length_le_of_nodup_lt {l : List ℕ} {n : ℕ} (hnd : l.Nodup) (hb : ∀ x ∈ l, x < n) :
    l.length ≤ n := by
  have hsub : l.toFinset ⊆ Finset.range n := by
    intro x hx
    exact Finset.mem_range.mpr (hb x (List.mem_toFinset.mp hx))
  have hcard := Finset.card_le_card hsub
  rwa [List.toFinset_card_of_nodup hnd, Finset.card_range] at hcard

/-- Members of the edge list index real points and lie within the cutoff. -/
theorem mem_withinEdges {c : ℚ} {gt pred : Coords} {p : ℕ × ℕ}
    (h : p ∈ withinEdges c gt pred) :
    p.1 < gt.length ∧ p.2 < pred.length ∧
      withinCutoff c (sqDist (gt.getD p.1 []) (pred.getD p.2 [])) = true := by
  simp only [withinEdges, List.mem_flatMap, List.mem_filterMap, List.mem_range] at h
  obtain ⟨i, hi, j, hj, hij⟩ := h
  by_cases hc : withinCutoff c (sqDist (gt.getD i []) (pred.getD j [])) = true
  · rw [if_pos hc] at hij
    cases hij
    exact ⟨hi, hj, hc⟩
  · rw [if_neg hc] at hij
    cases hij

/-- The matching returned by `matchPoints` is a genuine matching, and all its
pairs are within-cutoff edges. -/
theorem matchPoints_valid (c : ℚ) (gt pred : Coords) :
    isMatchingB (matchPoints c gt pred) = true ∧
      ∀ p ∈ matchPoints c gt pred, p ∈ withinEdges c gt pred := by
  have hmem : matchPoints c gt pred ∈
      ([] : List (ℕ × ℕ)) :: ((withinEdges c gt pred).sublists.filter isMatchingB) :=
    foldl_choice_mem (betterB gt pred) ((withinEdges c gt pred).sublists.filter isMatchingB) []
  rcases List.mem_cons.mp hmem with h | h
  · rw [h]
    exact ⟨rfl, by simp⟩
  · have h2 := List.mem_filter.mp h
    refine ⟨h2.2, ?_⟩
    intro p hp
    exact (List.mem_sublists.mp h2.1).subset hp

/-- The matching cardinality is bounded by both set sizes. -/
theorem matchPoints_length_le (c : ℚ) (gt pred : Coords) :
    (matchPoints c gt pred).length ≤ gt.length ∧
      (matchPoints c gt pred).length ≤ pred.length := by
  obtain ⟨hm, hedge⟩ := matchPoints_valid c gt pred
  simp only [isMatchingB, Bool.and_eq_true, nodupIdx_iff] at hm
  constructor
  · have hb : ∀ x ∈ (matchPoints c gt pred).map Prod.fst, x < gt.length := by
      intro x hx
      obtain ⟨p, hp, hpx⟩ := List.mem_map.mp hx
      rw [← hpx]
      exact (mem_withinEdges (hedge p hp)).1
    have hlen := length_le_of_nodup_lt hm.1 hb
    rwa [List.length_map] at hlen
  · have hb : ∀ x ∈ (matchPoints c gt pred).map Prod.snd, x < pred.length := by
      intro x hx
      obtain ⟨p, hp, hpx⟩ := List.mem_map.mp hx
      rw [← hpx]
      exact (mem_withinEdges (hedge p hp)).2.1
    have hlen := length_le_of_nodup_lt hm.2 hb
    rwa [List.length_map] at hlen

/-- Cross-multiplied integer comparison against `cutoff.num / cutoff.den`
agrees with the rational comparison `d < cutoff ^ 2`. -/
theorem crossMul_iff (c : ℚ) (d : ℤ) :
    d * ((c.den : ℤ)) ^ 2 < c.num ^ 2 ↔ (d : ℚ) < c ^ 2 := by
  have hdpos : (0 : ℚ) < (c.den : ℚ) := by exact_mod_cast c.pos
  have hden : (0 : ℚ) < ((c.den : ℚ)) ^ 2 := pow_pos hdpos 2
  have hne : ((c.den : ℚ)) ≠ 0 := ne_of_gt hdpos
  have h1 : (c.num : ℚ) = c * (c.den : ℚ) := (div_eq_iff hne).mp (Rat.num_div_den c)
  have hkey : c ^ 2 * ((c.den : ℚ)) ^ 2 = ((c.num : ℚ)) ^ 2 := by
    rw [← mul_pow, ← h1]
  constructor
  · intro h
    have h3 : ((d : ℚ)) * ((c.den : ℚ)) ^ 2 < ((c.num : ℚ)) ^ 2 := by exact_mod_cast h
    rw [← hkey] at h3
    exact (mul_lt_mul_right hden).mp h3
  · intro h
    have h3 : ((d : ℚ)) * ((c.den : ℚ)) ^ 2 < c ^ 2 * ((c.den : ℚ)) ^ 2 :=
      (mul_lt_mul_right hden).mpr h
    rw [hkey] at h3
    exact_mod_cast h3

/-- The edge test in rational terms: a positive cutoff and squared distance
strictly below the squared cutoff. -/
theorem withinCutoff_iff (c : ℚ) (d : ℤ) :
    withinCutoff c d = true ↔ 0 < c ∧ (d : ℚ) < c ^ 2 := by
  unfold withinCutoff
  rw [Bool.and_eq_true, decide_eq_true_eq, decide_eq_true_eq, Rat.num_pos, crossMul_iff]

/-! ## Claim theorems -/

/-- C1: the dataset aggregation contract exposes both aggregation policies —
by-image (macro) and pooled (micro) — through the `by_image` parameter the
caller selects, with by-image as the contract default (and `main` explicitly
selecting by-image); the two policies are genuinely distinct computations
over the same per-sample intermediate results, differing on a dataset with
unequal sample sizes. -/
theorem C1_aggregation_policies :
    by_image_default = true ∧
    by_image_main = by_image_default ∧
    (∀ (gts preds : List Coords) (c : ℚ),
      points_matching_dataset gts preds c true =
          aggregateByImage (sampleMetricsList c gts preds) ∧
      points_matching_dataset gts preds c false =
          aggregatePooled (sampleMetricsList c gts preds)) ∧
    (points_matching_dataset [[[0, 0]], [[0, 0], [10, 10], [20, 20]]] [[[0, 0]], []] 3
        true).f1 ≠
      (points_matching_dataset [[[0, 0]], [[0, 0], [10, 10], [20, 20]]] [[[0, 0]], []] 3
        false).f1 := by
  refine ⟨rfl, rfl, fun gts preds c => ⟨rfl, rfl⟩, ?_⟩
  have hm1 : matchPoints 3 [[0, 0]] [[0, 0]] = [(0, 0)] := by decide
  have hm2 : matchPoints 3 [[0, 0], [10, 10], [20, 20]] [] = [] := by decide
  have h1 : (points_matching_dataset [[[0, 0]], [[0, 0], [10, 10], [20, 20]]] [[[0, 0]], []] 3
      true).f1 = 1 / 2 := by
    norm_num [points_matching_dataset, aggregateByImage, sampleMetricsList, perSample,
      mkMetrics, precisionOf, recallOf, f1Of, hm1, hm2]
  have h2 : (points_matching_dataset [[[0, 0]], [[0, 0], [10, 10], [20, 20]]] [[[0, 0]], []] 3
      false).f1 = 2 / 5 := by
    norm_num [points_matching_dataset, aggregatePooled, pooledSample, sampleMetricsList,
      perSample, mkMetrics, precisionOf, recallOf, f1Of, hm1, hm2]
  rw [h1, h2]
  norm_num

/-- C2 counterexample: with ground-truth file `image1_extra.csv` and
prediction file `image1_predict.csv`, the loader accepts the pair (no error)
although the prediction stem stripped of `_predict` does not equal the
ground-truth stem — the code only checks a string-prefix relation, not
equality. -/
theorem C2_counterexample :
    isErr (load_data (fun _ => []) (fun _ => [])
        [("image1_extra.csv")] [("image1_predict.csv")] false).1 = false ∧
      stripPredict (stem ("image1_predict.csv")) ≠ stem ("image1_extra.csv") :=
  ⟨by decide, by decide⟩

/-- C2 (amended): for every pair of file collections accepted by the loader,
each ground-truth file's stem starts with the corresponding prediction
file's stem truncated at the first occurrence of `_predict`; if for some
aligned pair this prefix check fails, the loader raises an error and no
coordinate file is read. -/
theorem C2_stem_check (r2 r3 : String → Coords) (gtDir predDir : List String) (is3d : Bool) :
    (∀ gts preds, (load_data r2 r3 gtDir predDir is3d).1 = Except.ok (gts, preds) →
        ∀ fp ∈ (csvFiles gtDir).zip (csvFiles predDir), stemsMatch fp = true) ∧
    ((∃ fp ∈ (csvFiles gtDir).zip (csvFiles predDir), stemsMatch fp = false) →
        isErr (load_data r2 r3 gtDir predDir is3d).1 = true ∧
          (load_data r2 r3 gtDir predDir is3d).2 = []) :=
  ⟨fun gts preds h => load_data_ok_stems r2 r3 gtDir predDir is3d gts preds h,
   fun h => load_data_stem_failure r2 r3 gtDir predDir is3d h⟩

/-- Witness for C2: on ground truth `b.csv` against prediction `a.csv` the
prefix check fails, the loader raises, and nothing is read. -/
theorem C2_witness :
    isErr (load_data (fun _ => []) (fun _ => []) [("b.csv")] [("a.csv")] false).1 = true ∧
      (load_data (fun _ => []) (fun _ => []) [("b.csv")] [("a.csv")] false).2 = [] :=
  (C2_stem_check (fun _ => []) (fun _ => []) [("b.csv")] [("a.csv")] false).2
    ⟨(("b.csv"), ("a.csv")), by decide, by decide⟩

/-- C3: when the two directories hold different numbers of CSV files, the
loader raises immediately and its read trace is empty — no coordinate file
is read and no partial result is produced. -/
theorem C3_unequal_counts_abort (r2 r3 : String → Coords) (gtDir predDir : List String)
    (is3d : Bool)
    (h : (gtDir.filter isCsvName).length ≠ (predDir.filter isCsvName).length) :
    isErr (load_data r2 r3 gtDir predDir is3d).1 = true ∧
      (load_data r2 r3 gtDir predDir is3d).2 = [] := by
  have hg : (csvFiles gtDir).length = (gtDir.filter isCsvName).length :=
    (csvFiles_perm gtDir).length_eq
  have hp : (csvFiles predDir).length = (predDir.filter isCsvName).length :=
    (csvFiles_perm predDir).length_eq
  have hne : (csvFiles gtDir).length ≠ (csvFiles predDir).length := by
    rw [hg, hp]
    exact h
  unfold load_data
  rw [if_pos hne]
  exact ⟨rfl, rfl⟩

/-- Witness for C3: one ground-truth CSV against an empty prediction
directory aborts with the error and reads nothing. -/
theorem C3_witness :
    isErr (load_data (fun _ => []) (fun _ => []) [("a.csv")] [] false).1 = true ∧
      (load_data (fun _ => []) (fun _ => []) [("a.csv")] [] false).2 = [] :=
  C3_unequal_counts_abort (fun _ => []) (fun _ => []) [("a.csv")] [] false (by decide)

/-- C4: for every sample the engine processes, TP + FN equals the
ground-truth count, TP + FP equals the prediction count, and every matched
pair lies strictly within the (positive) cutoff — stated as
`dist² < cutoff²`, equivalent to `dist < cutoff` on nonnegative values. -/
theorem C4_engine_invariants (c : ℚ) (gt pred : Coords) :
    (perSample c gt pred).tp + (perSample c gt pred).fneg = gt.length ∧
    (perSample c gt pred).tp + (perSample c gt pred).fp = pred.length ∧
    ∀ p ∈ matchPoints c gt pred,
      0 < c ∧ ((sqDist (gt.getD p.1 []) (pred.getD p.2 [])) : ℚ) < c ^ 2 := by
  obtain ⟨h1, h2⟩ := matchPoints_length_le c gt pred
  refine ⟨?_, ?_, ?_⟩
  · simp only [perSample, mkMetrics]
    exact Nat.add_sub_cancel' h1
  · simp only [perSample, mkMetrics]
    exact Nat.add_sub_cancel' h2
  · intro p hp
    have h3 := (mem_withinEdges ((matchPoints_valid c gt pred).2 p hp)).2.2
    exact (withinCutoff_iff c _).mp h3

/-- Witness for C4 on the sample gt = [(0,0)], pred = [(1,1)] at cutoff 3:
the counts add up and the matched pair (0,0) is within the cutoff. -/
theorem C4_witness :
    (perSample 3 [[0, 0]] [[1, 1]]).tp + (perSample 3 [[0, 0]] [[1, 1]]).fneg = 1 ∧
    (0 < (3 : ℚ) ∧ ((sqDist [0, 0] [1, 1] : ℤ) : ℚ) < 3 ^ 2) :=
  ⟨(C4_engine_invariants 3 [[0, 0]] [[1, 1]]).1,
   (C4_engine_invariants 3 [[0, 0]] [[1, 1]]).2.2 (0, 0) (by decide)⟩

/-- C5 counterexample: on gt = [], pred = [(1,1)] the §4.3 calculator yields
recall 0.0, not the claimed 1.0 — its guarded recall is 0.0 whenever the
ground truth is empty but predictions exist. -/
theorem C5_counterexample : ¬ ((perSample 3 [] [[1, 1]]).recall' = 1) := by decide

/-- C5 (amended): gt = [], pred = [] gives precision 1.0, recall 1.0 and
TP = FP = FN = 0; gt = [], pred = [(1,1)] gives precision 0.0, recall 0.0
and FP = 1; gt = [(0,0)], pred = [] gives recall 0.0 and FN = 1. -/
theorem C5_degenerate_metrics :
    ((perSample 3 [] []).precision = 1 ∧ (perSample 3 [] []).recall' = 1 ∧
      (perSample 3 [] []).tp = 0 ∧ (perSample 3 [] []).fp = 0 ∧
      (perSample 3 [] []).fneg = 0) ∧
    ((perSample 3 [] [[1, 1]]).precision = 0 ∧ (perSample 3 [] [[1, 1]]).recall' = 0 ∧
      (perSample 3 [] [[1, 1]]).fp = 1) ∧
    ((perSample 3 [[0, 0]] []).recall' = 0 ∧ (perSample 3 [[0, 0]] []).fneg = 1) := by
  have hm1 : matchPoints 3 [] [[1, 1]] = [] := by decide
  have hm2 : matchPoints 3 [[0, 0]] [] = [] := by decide
  refine ⟨⟨by decide, by decide, by decide, by decide, by decide⟩,
    ⟨?_, by decide, by decide⟩, ⟨?_, by decide⟩⟩
  · norm_num [perSample, mkMetrics, precisionOf, hm1]
  · norm_num [perSample, mkMetrics, recallOf, hm2]

/-- C6: whenever the loader succeeds, it returns two equal-length,
index-aligned tuples — the i-th ground-truth array is the i-th
lexicographically sorted ground-truth CSV file read through the selected
reader, and likewise for predictions; the sorted file lists are sorted
permutations of the directories' CSV entries. -/
theorem C6_loader_alignment (r2 r3 : String → Coords) (gtDir predDir : List String)
    (is3d : Bool) (gts preds : List Coords)
    (h : (load_data r2 r3 gtDir predDir is3d).1 = Except.ok (gts, preds)) :
    gts.length = preds.length ∧
    gts = (csvFiles gtDir).map (if is3d then r3 else r2) ∧
    preds = (csvFiles predDir).map (if is3d then r3 else r2) ∧
    List.Sorted strLe (csvFiles gtDir) ∧
    (csvFiles gtDir).Perm (gtDir.filter isCsvName) ∧
    List.Sorted strLe (csvFiles predDir) ∧
    (csvFiles predDir).Perm (predDir.filter isCsvName) := by
  obtain ⟨hg, hp, hlen⟩ := load_data_ok r2 r3 gtDir predDir is3d gts preds h
  refine ⟨?_, hg, hp, csvFiles_sorted gtDir, csvFiles_perm gtDir,
    csvFiles_sorted predDir, csvFiles_perm predDir⟩
  rw [hg, hp, List.length_map, List.length_map]
  exact hlen

/-- Witness for C6: a concrete successful load returning the mapped sorted
file list. -/
theorem C6_witness :
    ([[]] : List Coords) =
      (csvFiles [("a.csv")]).map
        (if false then (fun _ => ([] : Coords)) else (fun _ => [])) :=
  (C6_loader_alignment (fun _ => []) (fun _ => []) [("a.csv")] [("a_predict.csv")] false
    [[]] [[]] rfl).2.1

/-- C7: when `--cutoff` is not supplied, the cutoff used for matching is the
argparse default 3.0. -/
theorem C7_cutoff_default_three (a : RawArgs) (h : a.cutoff = none) :
    effectiveCutoff a = 3 := by
  rw [effectiveCutoff, h]
  rfl

/-- Witness for C7 at a concrete argument record with no cutoff flag. -/
theorem C7_witness :
    effectiveCutoff
      { ground_truth := ("g"), predictions := ("p"), outfile := none, cutoff := none } = 3 :=
  C7_cutoff_default_three _ rfl

/-- C8: the entry point leaves the loader's 3D flag at its default `False`,
so its behaviour never depends on the 3D reader (the 3D path is unreachable
from the command line) and every file is read with the 2D reader. -/
theorem C8_two_dim_reader_only :
    is3d_default = false ∧
    (∀ (listDir : String → List String) (r2 r3 r3' : String → Coords) (a : RawArgs),
      mainEntry listDir r2 r3 a = mainEntry listDir r2 r3' a) ∧
    (∀ (r2 r3 : String → Coords) (gtDir predDir : List String) (gts preds : List Coords),
      (load_data r2 r3 gtDir predDir is3d_default).1 = Except.ok (gts, preds) →
        gts = (csvFiles gtDir).map r2 ∧ preds = (csvFiles predDir).map r2) := by
  refine ⟨rfl, fun listDir r2 r3 r3' a => rfl, ?_⟩
  intro r2 r3 gtDir predDir gts preds h
  obtain ⟨hg, hp, _⟩ := load_data_ok r2 r3 gtDir predDir is3d_default gts preds h
  exact ⟨hg, hp⟩

/-- Witness for C8: a concrete load with a non-trivial 3D reader still maps
every file through the 2D reader. -/
theorem C8_witness :
    ([[]] : List Coords) = (csvFiles [("a.csv")]).map (fun _ => ([] : Coords)) :=
  ((C8_two_dim_reader_only.2.2) (fun _ => []) (fun _ => [[1, 2, 3]])
    [("a.csv")] [("a_predict.csv")] [[]] [[]] rfl).1

/-- C9: with no `--outfile` argument the entry point performs no file-system
mutation (no directory creation, no CSV write), while still computing the
metrics record on a successful load. -/
theorem C9_no_write_without_outfile (listDir : String → List String)
    (r2 r3 : String → Coords) (a : RawArgs) (h : a.outfile = none) :
    (mainEntry listDir r2 r3 a).2 = [] ∧
    (∀ gts preds,
      (load_data r2 r3 (listDir a.ground_truth) (listDir a.predictions) is3d_default).1 =
          Except.ok (gts, preds) →
        (mainEntry listDir r2 r3 a).1 =
          Except.ok (points_matching_dataset gts preds (effectiveCutoff a) by_image_main)) := by
  constructor
  · rcases hload : (load_data r2 r3 (listDir a.ground_truth) (listDir a.predictions)
        is3d_default).1 with e | gp
    · simp only [mainEntry, hload]
    · simp only [mainEntry, hload, outEffects, h]
  · intro gts preds hok
    simp only [mainEntry, hok]

/-- Witness for C9 at a concrete argument record with no outfile. -/
theorem C9_witness :
    (mainEntry (fun _ => []) (fun _ => []) (fun _ => [])
      { ground_truth := ("g"), predictions := ("p"), outfile := none, cutoff := none }).2 =
      [] :=
  (C9_no_write_without_outfile (fun _ => []) (fun _ => []) (fun _ => [])
    { ground_truth := ("g"), predictions := ("p"), outfile := none, cutoff := none } rfl).1

/-- C10: when neither directory contains a CSV file, the loader succeeds and
returns two empty tuples with an empty read trace. -/
theorem C10_empty_dirs_ok (r2 r3 : String → Coords) (gtDir predDir : List String)
    (is3d : Bool) (hg : gtDir.filter isCsvName = []) (hp : predDir.filter isCsvName = []) :
    load_data r2 r3 gtDir predDir is3d = (Except.ok ([], []), []) := by
  have hcg : csvFiles gtDir = [] := by
    unfold csvFiles
    rw [hg]
    rfl
  have hcp : csvFiles predDir = [] := by
    unfold csvFiles
    rw [hp]
    rfl
  unfold load_data
  rw [hcg, hcp]
  simp

/-- Witness for C10: directories holding only non-CSV entries load as two
empty tuples. -/
theorem C10_witness :
    load_data (fun _ => []) (fun _ => []) [("readme.txt")] [] false =
      (Except.ok ([], []), []) :=
  C10_empty_dirs_ok (fun _ => []) (fun _ => []) [("readme.txt")] [] false (by decide) rfl
